import Mathlib

/-!
Shallow embedding of `src/streamlit_predict_app.py` (Show or Tell Prediction App).

The app is a sequential Streamlit workflow: student input, sentence
classification, agreement review, duplicate check, transactional persist,
email notification.  We embed the database helpers, the admin/week gating,
the analysis loop of the results page, the Analyze button handler and the
Submit button handler as pure Lean functions over an explicit database and
session state.  External collaborators (MySQL connection, the classifier
model, NLTK sentence tokenization, SMTP) are modelled as parameters:
a `DbOutcome` per database call (connection established / connection
failure / MySQL error during the operation), an opaque model function
`String → Nat`, an opaque tokenizer `String → List String`, and an
`EmailOutcome` for the SMTP send.
-/

/-- Outcome of one database call: `get_db_connection` returned a connection
and the SQL ran (`ok`), the connection failed (`connFail`, the function
returns its no-connection default), or a `mysql.connector.Error` was raised
during the operation (`sqlErr`, the `except` branch runs: rollback and
error return). -/
inductive DbOutcome
| ok
| connFail
| sqlErr
deriving Repr, DecidableEq

/-- Outcome of the SMTP send inside `send_feedback_email`: the message went
out, `smtplib.SMTPAuthenticationError` was raised, or some other exception
was raised.  Both exception kinds are caught inside the function. -/
inductive EmailOutcome
| sent
| authFail
| otherFail
deriving Repr, DecidableEq

/-- User-visible messages emitted via `st.error` / `st.success` / `st.info`
by the parts of the app we embed. -/
inductive Msg
| errorMissingFields
| errorDuplicate (week : Int)
| errorResolve
| errorSaveFailed
| successSaved (input_id : Nat) (week : Int)
| emailSentOk (email : String)
| emailAuthError
| emailSendError
| errorAdminKeyMissing
| adminUnlocked
| errorInvalidKey
| adminLocked
deriving Repr, DecidableEq

/-- Row of the `students` table (`student_id PK, full_name, email UNIQUE`). -/
structure Student where
  student_id : Nat
  full_name : String
  email : String
deriving Repr, DecidableEq

/-- Row of the `weeks` table (`week_id PK, week_number UNIQUE, label`). -/
structure Week where
  week_id : Nat
  week_number : Int
  label : String
deriving Repr, DecidableEq

/-- Row of the `student_inputs` table, exactly the columns named in the
INSERT of `insert_submission_and_sentences`. -/
structure SubmissionRow where
  input_id : Nat
  student_id : Nat
  week_id : Nat
  student_name : String
  email : String
  title : String
  story : String
  total_sentences : Nat
  show_sentences : Nat
  tell_sentences : Nat
  reflection : String
  comments : String
deriving Repr, DecidableEq

/-- Row of the `student_sentences` table, exactly the columns named in the
INSERT of `insert_submission_and_sentences`. -/
structure SentenceRow where
  input_id : Nat
  week_id : Nat
  sentence_idx : Nat
  sentence_text : String
  model_label : String
  student_agree : Nat
deriving Repr, DecidableEq

/-- The relational store, with explicit auto-increment counters. -/
structure DB where
  students : List Student
  weeks : List Week
  student_inputs : List SubmissionRow
  student_sentences : List SentenceRow
  next_student_id : Nat
  next_week_id : Nat
  next_input_id : Nat
deriving Repr, DecidableEq

/-- Python `str.strip()`: whitespace test (space, tab, newline, carriage
return, vertical tab, form feed). -/
def isPySpace (c : Char) : Bool :=
  c == ' ' || c == '\t' || c == '\n' || c == '\r' ||
    c == Char.ofNat 11 || c == Char.ofNat 12

/-- Python `str.strip()`: drop leading and trailing whitespace.  Defined
over the character list so that it evaluates in the kernel. -/
def pyStrip (s : String) : String :=
  ⟨((s.data.dropWhile isPySpace).reverse.dropWhile isPySpace).reverse⟩

/-- Python `str.lower()` (ASCII range, which covers the app's inputs). -/
def pyLower (s : String) : String :=
  ⟨s.data.map Char.toLower⟩

/-- Embeds `(email or "").strip().lower()` as performed by `get_or_create_student`. -/
def normalizeEmail (email : String) : String :=
  pyLower (pyStrip email)

/-- Embeds `get_or_create_student(full_name, email)`: INSERT INTO students ...
ON DUPLICATE KEY UPDATE full_name = VALUES(full_name); on the update path
(`cur.lastrowid` falsy) the id is fetched by SELECT on the normalized
email.  Returns `(student_id?, new db)`; on connection failure or MySQL
error it returns `none` and (after rollback) leaves the store unchanged. -/
def get_or_create_student (o : DbOutcome) (db : DB) (full_name email : String) :
    Option Nat × DB :=
  match o with
  | DbOutcome.connFail => (none, db)
  | DbOutcome.sqlErr => (none, db)
  | DbOutcome.ok =>
    let email_l := normalizeEmail email
    match db.students.find? (fun st => st.email == email_l) with
    | some st =>
      (some st.student_id,
        { db with students :=
            db.students.map (fun s =>
              if s.student_id == st.student_id then
                { s with full_name := pyStrip full_name }
              else s) })
    | none =>
      (some db.next_student_id,
        { db with
            students := db.students ++
              [⟨db.next_student_id, pyStrip full_name, email_l⟩],
            next_student_id := db.next_student_id + 1 })

/-- Embeds `get_or_create_week(week_number, label)`: INSERT INTO weeks ...
ON DUPLICATE KEY UPDATE label = COALESCE(VALUES(label), label); the passed
label is `label if label else f"Week {week_number}"`, never NULL, so on
conflict the label is refreshed and the key is untouched. -/
def get_or_create_week (o : DbOutcome) (db : DB) (week_number : Int)
    (label : Option String) : Option Nat × DB :=
  match o with
  | DbOutcome.connFail => (none, db)
  | DbOutcome.sqlErr => (none, db)
  | DbOutcome.ok =>
    let lbl := match label with
      | some l => if l == "" then s!"Week {week_number}" else l
      | none => s!"Week {week_number}"
    match db.weeks.find? (fun w => w.week_number == week_number) with
    | some w =>
      (some w.week_id,
        { db with weeks :=
            db.weeks.map (fun x =>
              if x.week_id == w.week_id then { x with label := lbl } else x) })
    | none =>
      (some db.next_week_id,
        { db with
            weeks := db.weeks ++ [⟨db.next_week_id, week_number, lbl⟩],
            next_week_id := db.next_week_id + 1 })

/-- Embeds `has_existing_submission(student_id, week_id)`: SELECT 1 FROM
student_inputs WHERE student_id=%s AND week_id=%s LIMIT 1.  On connection
failure it returns `False` (`if not conn: return False`); on a MySQL error
it reports and returns `False`. -/
def has_existing_submission (o : DbOutcome) (db : DB) (student_id week_id : Nat) :
    Bool :=
  match o with
  | DbOutcome.connFail => false
  | DbOutcome.sqlErr => false
  | DbOutcome.ok =>
    db.student_inputs.any (fun r =>
      r.student_id == student_id && r.week_id == week_id)

/-- Embeds `insert_submission_and_sentences(...)`: one parent `student_inputs` row
plus one `student_sentences` row per entry of `sentence_rows`, committed
together; on a MySQL error the transaction is rolled back (store unchanged)
and `None` is returned; on connection failure `None` is returned. -/
def insert_submission_and_sentences (o : DbOutcome) (db : DB)
    (student_id week_id : Nat)
    (student_name email title story : String)
    (total shw tll : Nat) (reflection comments : String)
    (sentence_rows : List (Nat × String × String × Nat)) :
    Option Nat × DB :=
  match o with
  | DbOutcome.connFail => (none, db)
  | DbOutcome.sqlErr => (none, db)
  | DbOutcome.ok =>
    let input_id := db.next_input_id
    let parent : SubmissionRow :=
      ⟨input_id, student_id, week_id, student_name, email, title, story,
        total, shw, tll, reflection, comments⟩
    let rows : List SentenceRow :=
      sentence_rows.map (fun r =>
        ⟨input_id, week_id, r.1, r.2.1, r.2.2.1, r.2.2.2⟩)
    (some input_id,
      { db with
          student_inputs := db.student_inputs ++ [parent],
          student_sentences := db.student_sentences ++ rows,
          next_input_id := input_id + 1 })

/-- Embeds `send_feedback_email`: builds the message and sends over SMTP_SSL; the
send is wrapped in try/except catching `SMTPAuthenticationError` and any
other exception, so the function always returns (no exception escapes) and
never touches the database (it receives no connection). -/
def send_feedback_email (o : EmailOutcome) (email : String) : List Msg :=
  match o with
  | EmailOutcome.sent => [Msg.emailSentOk email]
  | EmailOutcome.authFail => [Msg.emailAuthError]
  | EmailOutcome.otherFail => [Msg.emailSendError]

/-- Embeds `read_admin_key()`: `str(st.secrets.get("ADMIN_KEY", "") or "")` with a
catch-all returning `""`.  `adminKey = none` models the secret being unset
(and the exception branch). -/
def read_admin_key (adminKey : Option String) : String :=
  adminKey.getD ""

/-- Embeds `current_week_default()`: `int(st.secrets.get("CURRENT_WEEK", 5))` with
a catch-all returning 5.  `secretWeek = none` models the secret being unset
(and the exception branch). -/
def current_week_default (secretWeek : Option Int) : Int :=
  secretWeek.getD 5

/-- The sidebar/session state the admin gating touches. -/
structure AdminSession where
  admin_ok : Bool
  week_number : Int
deriving Repr, DecidableEq

/-- The top-of-render guard: `if not st.session_state.get("admin_ok"):
st.session_state.week_number = current_week_default()`. -/
def weekResync (secretWeek : Option Int) (s : AdminSession) : AdminSession :=
  if s.admin_ok then s
  else { s with week_number := current_week_default secretWeek }

/-- The "Unlock" button handler: strips the configured key and the entered
key; if the configured key is empty, reports a configuration error (session
state untouched); else compares and sets or clears `admin_ok`. -/
def unlockHandler (adminKey : Option String) (entered : String)
    (s : AdminSession) : AdminSession × List Msg :=
  let expected := pyStrip (read_admin_key adminKey)
  let ent := pyStrip entered
  if expected == "" then
    (s, [Msg.errorAdminKeyMissing])
  else if ent == expected then
    ({ s with admin_ok := true }, [Msg.adminUnlocked])
  else
    ({ s with admin_ok := false }, [Msg.errorInvalidKey])

/-- Embeds `label_text = "Show" if label == 0 else "Tell"`. -/
def labelText (label : Nat) : String :=
  if label == 0 then "Show" else "Tell"

/-- Embeds `predict_sentences(sentences, model, vectorizer)`: tokenizes each
sentence and calls the opaque model, producing one label per sentence in
order.  The model (with its lower-casing, word tokenization and
vectorization pipeline) is the opaque `model : String → Nat`. -/
def predict_sentences (model : String → Nat) (sentences : List String) :
    List Nat :=
  sentences.map model

/-- One entry of the `feedback_data` list:
`{"sentence": sent, "label": label_text, "agree": agree}`. -/
structure FeedbackItem where
  sentence : String
  label : String
  agree : Bool
deriving Repr, DecidableEq

/-- Accumulated output of the results-page analysis loop: the
`feedback_data` list, the `sentence_rows` list, and the
`total`/`show`/`tell` tallies stored into session state. -/
structure AnalysisResult where
  feedback_data : List FeedbackItem
  sentence_rows : List (Nat × String × String × Nat)
  total_sentences : Nat
  show_sentences : Nat
  tell_sentences : Nat
deriving Repr, DecidableEq

/-- The results-page analysis loop: for each story, tokenize into
sentences, predict, then `for i, (sent, label) in
enumerate(zip(sentences, predictions))` append a feedback item and a
sentence row `(i, sent, label_text, 1 if agree else 0)`; the agreement
checkbox keyed `agree_{i}` is the opaque `agrees : Nat → Bool`.  Tallies:
`total += len(predictions)`, `show += #(p == 0)`, `tell += #(p == 1)`. -/
def resultsAnalysis (tok : String → List String) (model : String → Nat)
    (agrees : Nat → Bool) (stories : List String) : AnalysisResult :=
  stories.foldl
    (fun acc story =>
      let sentences := tok story
      let predictions := predict_sentences model sentences
      let pairs := (sentences.zip predictions).enum
      { feedback_data := acc.feedback_data ++
          pairs.map (fun p => ⟨p.2.1, labelText p.2.2, agrees p.1⟩),
        sentence_rows := acc.sentence_rows ++
          pairs.map (fun p =>
            (p.1, p.2.1, labelText p.2.2, if agrees p.1 then 1 else 0)),
        total_sentences := acc.total_sentences + predictions.length,
        show_sentences := acc.show_sentences +
          predictions.countP (fun p => p == 0),
        tell_sentences := acc.tell_sentences +
          predictions.countP (fun p => p == 1) })
    ⟨[], [], 0, 0, 0⟩

/-- The pieces of `st.session_state` the Input page handler reads/writes. -/
structure AppSession where
  page : String
  stories : List String
  student_name : String
  student_email : String
  story_title : String
  week_number : Int
deriving Repr, DecidableEq

/-- The four text widgets of the Input page. -/
structure InputForm where
  student_name : String
  email : String
  title : String
  input_text : String
deriving Repr, DecidableEq

/-- Database-call outcomes for the two-resolution-plus-probe sequence run
by the Analyze and Submit handlers. -/
structure HandlerEnv where
  studentDb : DbOutcome
  weekDb : DbOutcome
  probeDb : DbOutcome
  insertDb : DbOutcome
  emailOutcome : EmailOutcome
deriving Repr, DecidableEq

/-- Python truthiness of the ids the handlers test with
`if not student_id or not week_id` / `if _sid and _wid`: `None` and `0`
are falsy. -/
def truthyId : Option Nat → Bool
| none => false
| some n => n != 0

/-- The "Analyze" button handler on the Input page:
`stories = [input_text.strip()] if input_text.strip() else []`; if name,
email or title is falsy, error; `elif stories:` resolve student and week,
block if a submission already exists, otherwise move the session to the
results page and store the form fields.  When `stories` is empty (and the
three fields are non-empty) nothing at all happens. -/
def analyzeHandler (env : HandlerEnv) (db : DB) (s : AppSession)
    (form : InputForm) : AppSession × DB × List Msg :=
  let stories := if (pyStrip form.input_text) == "" then [] else [(pyStrip form.input_text)]
  if form.student_name == "" || form.email == "" || form.title == "" then
    (s, db, [Msg.errorMissingFields])
  else if stories.isEmpty then
    (s, db, [])
  else
    let r1 := get_or_create_student env.studentDb db form.student_name form.email
    let r2 := get_or_create_week env.weekDb r1.2 s.week_number none
    if truthyId r1.1 && truthyId r2.1 &&
        has_existing_submission env.probeDb r2.2 (r1.1.getD 0) (r2.1.getD 0) then
      (s, r2.2, [Msg.errorDuplicate s.week_number])
    else
      ({ s with
          page := "results",
          stories := stories,
          student_name := form.student_name,
          student_email := form.email,
          story_title := form.title },
        r2.2, [])

/-- The session data the "Submit Feedback & Send Email" handler consumes
(already frozen into `st.session_state` by earlier steps). -/
structure SubmitData where
  student_name : String
  student_email : String
  story_title : String
  story : String
  week_number : Int
  total_sentences : Nat
  show_sentences : Nat
  tell_sentences : Nat
  reflection : String
  comment : String
  sentence_rows : List (Nat × String × String × Nat)
deriving Repr, DecidableEq

/-- The "Submit Feedback & Send Email" button handler: resolve student and
week; if either id is falsy, report and abort; re-check for an existing
submission and block (with `st.stop()`) if found; otherwise insert the
parent row and the sentence rows; if the insert returned an id, send the
feedback email and report success with the id; else report that the
submission was not saved and the email was not sent.  Returns the final
database, the emitted messages, and whether `send_feedback_email` was
invoked. -/
def submitHandler (env : HandlerEnv) (db : DB) (d : SubmitData) :
    DB × List Msg × Bool :=
  let r1 := get_or_create_student env.studentDb db d.student_name d.student_email
  let r2 := get_or_create_week env.weekDb r1.2 d.week_number none
  if !truthyId r1.1 || !truthyId r2.1 then
    (r2.2, [Msg.errorResolve], false)
  else
    let sid := r1.1.getD 0
    let wid := r2.1.getD 0
    if has_existing_submission env.probeDb r2.2 sid wid then
      (r2.2, [Msg.errorDuplicate d.week_number], false)
    else
      let r3 := insert_submission_and_sentences env.insertDb r2.2 sid wid
        d.student_name d.student_email d.story_title d.story
        d.total_sentences d.show_sentences d.tell_sentences
        d.reflection d.comment d.sentence_rows
      match r3.1 with
      | some input_id =>
        (r3.2,
          send_feedback_email env.emailOutcome d.student_email ++
            [Msg.successSaved input_id d.week_number],
          true)
      | none =>
        (r3.2, [Msg.errorSaveFailed], false)

/-! ## Helper lemmas -/

theorem enum_map_snd_comp {α β : Type} (f : α → β) (l : List α) :
    l.enum.map (fun p => f p.2) = l.map f := by
  conv_rhs => rw [← List.enum_map_snd l]
  rw [List.map_map]
  rfl

theorem countP_zero_one_length (l : List Nat)
    (h : ∀ x ∈ l, x = 0 ∨ x = 1) :
    l.countP (fun p => p == 0) + l.countP (fun p => p == 1) = l.length := by
  induction l with
  | nil => simp
  | cons a t ih =>
    have ha := h a (List.mem_cons_self a t)
    have ht : ∀ x ∈ t, x = 0 ∨ x = 1 := fun x hx => h x (List.mem_cons_of_mem a hx)
    rcases ha with h0 | h1
    · subst h0
      simp only [List.countP_cons, List.length_cons]
      rw [← ih ht]
      simp
      omega
    · subst h1
      simp only [List.countP_cons, List.length_cons]
      rw [← ih ht]
      simp
      omega

/-! ## C2: sentence rows mirror the classifier output -/

/-- C2: for every non-empty story text, the `sentence_rows` list assembled
by the results-page analysis loop has exactly one row per `(sentence,
label)` pair returned by the classifier, in classifier output order, and
the row indices form the contiguous 0-based range `[0, n-1]`. -/
theorem c2_sentence_rows_contiguous (tok : String → List String)
    (model : String → Nat) (agrees : Nat → Bool) (story : String)
    (hne : story ≠ "") :
    (resultsAnalysis tok model agrees [story]).sentence_rows.length =
      ((tok story).zip (predict_sentences model (tok story))).length ∧
    (resultsAnalysis tok model agrees [story]).sentence_rows.map (fun q => q.1) =
      List.range (resultsAnalysis tok model agrees [story]).sentence_rows.length ∧
    (resultsAnalysis tok model agrees [story]).sentence_rows.map
        (fun q => (q.2.1, q.2.2.1)) =
      ((tok story).zip (predict_sentences model (tok story))).map
        (fun p => (p.1, labelText p.2)) := by
  refine ⟨?_, ?_, ?_⟩
  · simp [resultsAnalysis, List.enum_length]
  · simp only [resultsAnalysis, List.foldl_cons, List.foldl_nil, List.nil_append,
      List.map_map, List.length_map, List.enum_length]
    have : ((fun q : Nat × String × String × Nat => q.1) ∘
        (fun p : Nat × String × Nat =>
          (p.1, p.2.1, labelText p.2.2, if agrees p.1 then 1 else 0))) =
        (fun p : Nat × String × Nat => p.1) := rfl
    rw [this]
    have h2 := List.enum_map_fst ((tok story).zip (predict_sentences model (tok story)))
    simpa using h2
  · simp only [resultsAnalysis, List.foldl_cons, List.foldl_nil, List.nil_append,
      List.map_map]
    have : ((fun q : Nat × String × String × Nat => (q.2.1, q.2.2.1)) ∘
        (fun p : Nat × String × Nat =>
          (p.1, p.2.1, labelText p.2.2, if agrees p.1 then 1 else 0))) =
        (fun p : Nat × String × Nat => ((p.2.1 : String), labelText p.2.2)) := rfl
    rw [this]
    exact enum_map_snd_comp (fun x : String × Nat => (x.1, labelText x.2))
      ((tok story).zip (predict_sentences model (tok story)))

/-- Witness for C2 at a concrete non-empty story, one-sentence tokenizer,
all-Show model. -/
theorem c2_sentence_rows_contiguous_witness :
    ("hi" : String) ≠ "" ∧
    ((resultsAnalysis (fun s => [s]) (fun _ => 0) (fun _ => true) ["hi"]).sentence_rows.length =
      ((((fun s => [s]) : String → List String) "hi").zip
        (predict_sentences (fun _ => 0) (((fun s => [s]) : String → List String) "hi"))).length ∧
    (resultsAnalysis (fun s => [s]) (fun _ => 0) (fun _ => true) ["hi"]).sentence_rows.map
        (fun q => q.1) =
      List.range (resultsAnalysis (fun s => [s]) (fun _ => 0) (fun _ => true) ["hi"]).sentence_rows.length ∧
    (resultsAnalysis (fun s => [s]) (fun _ => 0) (fun _ => true) ["hi"]).sentence_rows.map
        (fun q => (q.2.1, q.2.2.1)) =
      ((((fun s => [s]) : String → List String) "hi").zip
        (predict_sentences (fun _ => 0) (((fun s => [s]) : String → List String) "hi"))).map
        (fun p => (p.1, labelText p.2))) :=
  ⟨by decide, c2_sentence_rows_contiguous (fun s => [s]) (fun _ => 0) (fun _ => true) "hi" (by decide)⟩

/-! ## C5: summary tallies -/

/-- C5: for every summary computed by the analysis loop over one non-empty
story with a binary classifier, `show_sentences + tell_sentences =
total_sentences`, and `total_sentences` equals the number of sentence rows
produced for the submission. -/
theorem c5_summary_tallies (tok : String → List String)
    (model : String → Nat) (agrees : Nat → Bool) (story : String)
    (hbin : ∀ s, model s = 0 ∨ model s = 1) :
    (resultsAnalysis tok model agrees [story]).show_sentences +
        (resultsAnalysis tok model agrees [story]).tell_sentences =
      (resultsAnalysis tok model agrees [story]).total_sentences ∧
    (resultsAnalysis tok model agrees [story]).total_sentences =
      (resultsAnalysis tok model agrees [story]).sentence_rows.length := by
  constructor
  · simp only [resultsAnalysis, List.foldl_cons, List.foldl_nil, Nat.zero_add]
    exact countP_zero_one_length (predict_sentences model (tok story))
      (by
        intro x hx
        simp only [predict_sentences, List.mem_map] at hx
        obtain ⟨s, _, hs⟩ := hx
        rw [← hs]
        exact hbin s)
  · simp [resultsAnalysis, predict_sentences, List.enum_length]

/-- Witness for C5 with a concrete two-sentence story and a model sending
the first sentence to Show and the second to Tell. -/
theorem c5_summary_tallies_witness :
    (∀ s : String, (if s == "a" then 0 else 1) = 0 ∨ (if s == "a" then 0 else 1) = 1) ∧
    ((resultsAnalysis (fun _ => ["a", "b"]) (fun s => if s == "a" then 0 else 1)
          (fun _ => true) ["a b"]).show_sentences +
        (resultsAnalysis (fun _ => ["a", "b"]) (fun s => if s == "a" then 0 else 1)
          (fun _ => true) ["a b"]).tell_sentences =
      (resultsAnalysis (fun _ => ["a", "b"]) (fun s => if s == "a" then 0 else 1)
          (fun _ => true) ["a b"]).total_sentences ∧
    (resultsAnalysis (fun _ => ["a", "b"]) (fun s => if s == "a" then 0 else 1)
          (fun _ => true) ["a b"]).total_sentences =
      (resultsAnalysis (fun _ => ["a", "b"]) (fun s => if s == "a" then 0 else 1)
          (fun _ => true) ["a b"]).sentence_rows.length) :=
  ⟨fun s => by by_cases h : s == "a" <;> simp [h],
    c5_summary_tallies (fun _ => ["a", "b"]) (fun s => if s == "a" then 0 else 1)
      (fun _ => true) "a b"
      (fun s => by by_cases h : s == "a" <;> simp [h])⟩

/-! ## C6: agreement tallies -/

/-- Modelled from the spec (§3): `agreed_show`, derived from the
per-sentence rows as the number of rows labelled "Show" whose
`student_agree` is 1.  Not computed by the code. -/
def specAgreedShow (rows : List (Nat × String × String × Nat)) : Nat :=
  rows.countP (fun r => r.2.2.1 == "Show" && r.2.2.2 == 1)

/-- Modelled from the spec (§3): `disagreed_show`. -/
def specDisagreedShow (rows : List (Nat × String × String × Nat)) : Nat :=
  rows.countP (fun r => r.2.2.1 == "Show" && r.2.2.2 == 0)

/-- Modelled from the spec (§3): `agreed_tell`. -/
def specAgreedTell (rows : List (Nat × String × String × Nat)) : Nat :=
  rows.countP (fun r => r.2.2.1 == "Tell" && r.2.2.2 == 1)

/-- Modelled from the spec (§3): `disagreed_tell`. -/
def specDisagreedTell (rows : List (Nat × String × String × Nat)) : Nat :=
  rows.countP (fun r => r.2.2.1 == "Tell" && r.2.2.2 == 0)

@[simp] theorem show_beq_show : (("Show" : String) == "Show") = true := by decide

@[simp] theorem tell_beq_show : (("Tell" : String) == "Show") = false := by decide

@[simp] theorem tell_beq_tell : (("Tell" : String) == "Tell") = true := by decide

@[simp] theorem show_beq_tell : (("Show" : String) == "Tell") = false := by decide

@[simp] theorem one_beq_zero_nat : (((1 : Nat)) == 0) = false := by decide

@[simp] theorem zero_beq_one_nat : (((0 : Nat)) == 1) = false := by decide

theorem tally_show_enumFrom (agrees : Nat → Bool) :
    ∀ (pairs : List (String × Nat)) (n : Nat),
    (∀ q ∈ pairs, q.2 = 0 ∨ q.2 = 1) →
    specAgreedShow ((pairs.enumFrom n).map
        (fun p => (p.1, p.2.1, labelText p.2.2, if agrees p.1 then (1 : Nat) else 0))) +
      specDisagreedShow ((pairs.enumFrom n).map
        (fun p => (p.1, p.2.1, labelText p.2.2, if agrees p.1 then (1 : Nat) else 0))) =
      pairs.countP (fun q => q.2 == 0)
  | [], _, _ => by simp [specAgreedShow, specDisagreedShow]
  | (s, lab) :: rest, n, h => by
    have hr := tally_show_enumFrom agrees rest (n + 1)
      (fun q hq => h q (List.mem_cons_of_mem _ hq))
    have hl := h (s, lab) (List.mem_cons_self _ _)
    simp only [specAgreedShow, specDisagreedShow, List.countP_map, labelText] at hr ⊢
    simp only [List.enumFrom_cons, List.countP_cons]
    rcases hl with h0 | h0 <;> simp only at h0 <;> subst h0 <;>
      by_cases ha : agrees n <;>
        simp only [Function.comp_apply, ha, if_true, if_false,
          beq_self_eq_true, one_beq_zero_nat, zero_beq_one_nat,
          show_beq_show, tell_beq_show, tell_beq_tell, show_beq_tell,
          Bool.true_and, Bool.and_true, Bool.false_and, Bool.and_false,
          Bool.and_self, Bool.false_eq_true] <;>
        omega

theorem tally_tell_enumFrom (agrees : Nat → Bool) :
    ∀ (pairs : List (String × Nat)) (n : Nat),
    (∀ q ∈ pairs, q.2 = 0 ∨ q.2 = 1) →
    specAgreedTell ((pairs.enumFrom n).map
        (fun p => (p.1, p.2.1, labelText p.2.2, if agrees p.1 then (1 : Nat) else 0))) +
      specDisagreedTell ((pairs.enumFrom n).map
        (fun p => (p.1, p.2.1, labelText p.2.2, if agrees p.1 then (1 : Nat) else 0))) =
      pairs.countP (fun q => q.2 == 1)
  | [], _, _ => by simp [specAgreedTell, specDisagreedTell]
  | (s, lab) :: rest, n, h => by
    have hr := tally_tell_enumFrom agrees rest (n + 1)
      (fun q hq => h q (List.mem_cons_of_mem _ hq))
    have hl := h (s, lab) (List.mem_cons_self _ _)
    simp only [specAgreedTell, specDisagreedTell, List.countP_map, labelText] at hr ⊢
    simp only [List.enumFrom_cons, List.countP_cons]
    rcases hl with h0 | h0 <;> simp only at h0 <;> subst h0 <;>
      by_cases ha : agrees n <;>
        simp only [Function.comp_apply, ha, if_true, if_false,
          beq_self_eq_true, one_beq_zero_nat, zero_beq_one_nat,
          show_beq_show, tell_beq_show, tell_beq_tell, show_beq_tell,
          Bool.true_and, Bool.and_true, Bool.false_and, Bool.and_false,
          Bool.and_self, Bool.false_eq_true] <;>
        omega

theorem countP_snd_zip_map (model : String → Nat) (p : Nat → Bool) :
    ∀ (sentences : List String),
    ((sentences.zip (sentences.map model)).countP (fun q => p q.2)) =
      (sentences.map model).countP p
  | [] => by simp
  | s :: rest => by
    simp only [List.map_cons, List.zip_cons_cons, List.countP_cons]
    rw [countP_snd_zip_map model p rest]

/-- Two-sentence tokenizer used in the C6 scenario. -/
def c6Tok : String → List String := fun _ => ["a", "b"]

/-- All-Show model used in the C6 scenario. -/
def c6Model : String → Nat := fun _ => 0

/-- Analysis run in which the student agreed with every label. -/
def c6RunAgree : AnalysisResult :=
  resultsAnalysis c6Tok c6Model (fun _ => true) ["a b"]

/-- Analysis run in which the student agreed with no label. -/
def c6RunDisagree : AnalysisResult :=
  resultsAnalysis c6Tok c6Model (fun _ => false) ["a b"]

/-- Submit-time session data built from an analysis run. -/
def c6Data (r : AnalysisResult) : SubmitData :=
  ⟨"Ann", "ann@x.com", "T", "a b", 5, r.total_sentences, r.show_sentences,
    r.tell_sentences, "r", "c", r.sentence_rows⟩

/-- All-success environment. -/
def envAllOk : HandlerEnv :=
  ⟨DbOutcome.ok, DbOutcome.ok, DbOutcome.ok, DbOutcome.ok, EmailOutcome.sent⟩

/-- The empty store with auto-increment counters at 1. -/
def dbEmpty : DB := ⟨[], [], [], [], 1, 1, 1⟩

/-- C6 counterexample: two complete submissions that differ only in the
per-sentence agreement checkboxes (all agreed vs none agreed) persist
identical `student_inputs` tables, even though their derived agreement
tallies differ (`agreed_show` 2 vs 0).  Hence the four agreement tallies
are neither computed into nor stored in the persisted Submission row. -/
theorem c6_counterexample :
    (submitHandler envAllOk dbEmpty (c6Data c6RunAgree)).1.student_inputs =
      (submitHandler envAllOk dbEmpty (c6Data c6RunDisagree)).1.student_inputs ∧
    specAgreedShow c6RunAgree.sentence_rows = 2 ∧
    specAgreedShow c6RunDisagree.sentence_rows = 0 := by
  refine ⟨?_, ?_, ?_⟩ <;> decide

/-- C6 (amended): the workflow does not compute separate agreement tallies
and does not store them in the Submission row (see the counterexample);
agreement is persisted only per-sentence via `student_agree` on each
sentence row.  The spec-level tallies, derived from the sentence rows
assembled for persistence, do satisfy `agreed_show + disagreed_show =
show_count` and `agreed_tell + disagreed_tell = tell_count` for a binary
classifier. -/
theorem c6_agreement_tallies_amended (tok : String → List String)
    (model : String → Nat) (agrees : Nat → Bool) (story : String)
    (hbin : ∀ s, model s = 0 ∨ model s = 1) :
    specAgreedShow (resultsAnalysis tok model agrees [story]).sentence_rows +
        specDisagreedShow (resultsAnalysis tok model agrees [story]).sentence_rows =
      (resultsAnalysis tok model agrees [story]).show_sentences ∧
    specAgreedTell (resultsAnalysis tok model agrees [story]).sentence_rows +
        specDisagreedTell (resultsAnalysis tok model agrees [story]).sentence_rows =
      (resultsAnalysis tok model agrees [story]).tell_sentences := by
  have hmem : ∀ q ∈ (tok story).zip (predict_sentences model (tok story)),
      q.2 = 0 ∨ q.2 = 1 := by
    intro q hq
    have h2 := (List.of_mem_zip hq).2
    simp only [predict_sentences, List.mem_map] at h2
    obtain ⟨s, _, hs⟩ := h2
    rw [← hs]
    exact hbin s
  constructor
  · simp only [resultsAnalysis, List.foldl_cons, List.foldl_nil, List.nil_append,
      Nat.zero_add, List.enum]
    rw [tally_show_enumFrom agrees ((tok story).zip (predict_sentences model (tok story)))
      0 hmem]
    exact countP_snd_zip_map model (fun x => x == 0) (tok story)
  · simp only [resultsAnalysis, List.foldl_cons, List.foldl_nil, List.nil_append,
      Nat.zero_add, List.enum]
    rw [tally_tell_enumFrom agrees ((tok story).zip (predict_sentences model (tok story)))
      0 hmem]
    exact countP_snd_zip_map model (fun x => x == 1) (tok story)

/-- Witness for the amended C6 at the concrete all-Show scenario. -/
theorem c6_agreement_tallies_amended_witness :
    (∀ s : String, c6Model s = 0 ∨ c6Model s = 1) ∧
    (specAgreedShow (resultsAnalysis c6Tok c6Model (fun _ => true) ["a b"]).sentence_rows +
        specDisagreedShow (resultsAnalysis c6Tok c6Model (fun _ => true) ["a b"]).sentence_rows =
      (resultsAnalysis c6Tok c6Model (fun _ => true) ["a b"]).show_sentences ∧
    specAgreedTell (resultsAnalysis c6Tok c6Model (fun _ => true) ["a b"]).sentence_rows +
        specDisagreedTell (resultsAnalysis c6Tok c6Model (fun _ => true) ["a b"]).sentence_rows =
      (resultsAnalysis c6Tok c6Model (fun _ => true) ["a b"]).tell_sentences) :=
  ⟨fun _ => Or.inl rfl,
    c6_agreement_tallies_amended c6Tok c6Model (fun _ => true) "a b"
      (fun _ => Or.inl rfl)⟩

/-! ## C1: duplicate submissions are rejected -/

theorem get_or_create_student_preserves (o : DbOutcome) (db : DB)
    (full_name email : String) :
    (get_or_create_student o db full_name email).2.student_inputs =
        db.student_inputs ∧
      (get_or_create_student o db full_name email).2.student_sentences =
        db.student_sentences := by
  cases o with
  | connFail => simp [get_or_create_student]
  | sqlErr => simp [get_or_create_student]
  | ok =>
    cases h : db.students.find? (fun st => st.email == normalizeEmail email) <;>
      simp [get_or_create_student, h]

theorem get_or_create_week_preserves (o : DbOutcome) (db : DB)
    (week_number : Int) (label : Option String) :
    (get_or_create_week o db week_number label).2.student_inputs =
        db.student_inputs ∧
      (get_or_create_week o db week_number label).2.student_sentences =
        db.student_sentences := by
  cases o with
  | connFail => simp [get_or_create_week]
  | sqlErr => simp [get_or_create_week]
  | ok =>
    cases h : db.weeks.find? (fun w => w.week_number == week_number) <;>
      simp [get_or_create_week, h]

/-- C1: in a sequential execution in which the resolve steps return usable
ids and the duplicate probe observes an existing Submission row, the
Submit handler stops with the duplicate error, sends no email, and
creates no new `student_inputs` row and no `student_sentences` rows. -/
theorem c1_duplicate_rejected (env : HandlerEnv) (db : DB) (d : SubmitData)
    (sid wid : Nat) (db1 db2 : DB)
    (h1 : get_or_create_student env.studentDb db d.student_name d.student_email =
      (some sid, db1))
    (hsid : sid ≠ 0)
    (h2 : get_or_create_week env.weekDb db1 d.week_number none = (some wid, db2))
    (hwid : wid ≠ 0)
    (hdup : has_existing_submission env.probeDb db2 sid wid = true) :
    submitHandler env db d = (db2, [Msg.errorDuplicate d.week_number], false) ∧
    db2.student_inputs = db.student_inputs ∧
    db2.student_sentences = db.student_sentences := by
  refine ⟨?_, ?_, ?_⟩
  · simp only [submitHandler, h1, h2]
    simp [truthyId, hsid, hwid, hdup]
  · have p1 := (get_or_create_student_preserves env.studentDb db d.student_name
      d.student_email).1
    have p2 := (get_or_create_week_preserves env.weekDb db1 d.week_number none).1
    rw [h1] at p1
    rw [h2] at p2
    rw [p2, p1]
  · have p1 := (get_or_create_student_preserves env.studentDb db d.student_name
      d.student_email).2
    have p2 := (get_or_create_week_preserves env.weekDb db1 d.week_number none).2
    rw [h1] at p1
    rw [h2] at p2
    rw [p2, p1]

/-- The store after one submission by Ann for week 5 (ids 1) is already
present. -/
def dbPre : DB :=
  ⟨[⟨1, "Ann", "ann@x.com"⟩], [⟨1, 5, "Week 5"⟩],
    [⟨1, 1, 1, "Ann", "ann@x.com", "T", "a b", 2, 2, 0, "r", "c"⟩],
    [], 2, 2, 2⟩

/-- Submit-time data for Ann's second attempt at week 5. -/
def dAnn : SubmitData :=
  ⟨"Ann", "ann@x.com", "T2", "x", 5, 1, 1, 0, "r2", "c2", [(0, "x", "Show", 1)]⟩

/-- Witness for C1: a concrete second submission for the same (email,
week) pair hits the duplicate check and is rejected. -/
theorem c1_duplicate_rejected_witness :
    (get_or_create_student envAllOk.studentDb dbPre dAnn.student_name
        dAnn.student_email = (some 1, dbPre) ∧
      (1 : Nat) ≠ 0 ∧
      get_or_create_week envAllOk.weekDb dbPre dAnn.week_number none =
        (some 1, dbPre) ∧
      has_existing_submission envAllOk.probeDb dbPre 1 1 = true) ∧
    (submitHandler envAllOk dbPre dAnn =
        (dbPre, [Msg.errorDuplicate dAnn.week_number], false) ∧
      dbPre.student_inputs = dbPre.student_inputs ∧
      dbPre.student_sentences = dbPre.student_sentences) :=
  ⟨⟨by decide, by decide, by decide, by decide⟩,
    c1_duplicate_rejected envAllOk dbPre dAnn 1 1 dbPre dbPre
      (by decide) (by decide) (by decide) (by decide) (by decide)⟩

/-! ## C3: email sent iff the write succeeded -/

/-- C3: once the Submit handler reaches the insert (ids resolved, no
duplicate observed), the notification email is invoked iff the insert
succeeded: a failed insert (connection failure or rollback) skips the
email, reports the failure and leaves the `student_inputs` table
unchanged; a successful insert appends exactly the submission row, invokes
the email and reports success with the generated id. -/
theorem c3_email_iff_persisted (env : HandlerEnv) (db : DB) (d : SubmitData)
    (sid wid : Nat) (db1 db2 : DB)
    (h1 : get_or_create_student env.studentDb db d.student_name d.student_email =
      (some sid, db1))
    (hsid : sid ≠ 0)
    (h2 : get_or_create_week env.weekDb db1 d.week_number none = (some wid, db2))
    (hwid : wid ≠ 0)
    (hnodup : has_existing_submission env.probeDb db2 sid wid = false) :
    (env.insertDb = DbOutcome.ok →
      (submitHandler env db d).2.2 = true ∧
      (submitHandler env db d).2.1 =
        send_feedback_email env.emailOutcome d.student_email ++
          [Msg.successSaved db2.next_input_id d.week_number] ∧
      (submitHandler env db d).1.student_inputs =
        db.student_inputs ++
          [⟨db2.next_input_id, sid, wid, d.student_name, d.student_email,
            d.story_title, d.story, d.total_sentences, d.show_sentences,
            d.tell_sentences, d.reflection, d.comment⟩]) ∧
    (env.insertDb ≠ DbOutcome.ok →
      (submitHandler env db d).2.2 = false ∧
      (submitHandler env db d).2.1 = [Msg.errorSaveFailed] ∧
      (submitHandler env db d).1.student_inputs = db.student_inputs) := by
  have pres : db2.student_inputs = db.student_inputs := by
    have p1 := (get_or_create_student_preserves env.studentDb db d.student_name
      d.student_email).1
    have p2 := (get_or_create_week_preserves env.weekDb db1 d.week_number none).1
    rw [h1] at p1
    rw [h2] at p2
    rw [p2, p1]
  constructor
  · intro hins
    simp only [submitHandler, h1, h2]
    simp [truthyId, hsid, hwid, hnodup, hins, insert_submission_and_sentences, pres]
  · intro hins
    simp only [submitHandler, h1, h2]
    cases hi : env.insertDb with
    | ok => exact absurd hi hins
    | connFail =>
      simp [truthyId, hsid, hwid, hnodup, hi, insert_submission_and_sentences, pres]
    | sqlErr =>
      simp [truthyId, hsid, hwid, hnodup, hi, insert_submission_and_sentences, pres]

/-- Store after resolving Ann against the empty store. -/
def c3Db1 : DB := ⟨[⟨1, "Ann", "ann@x.com"⟩], [], [], [], 2, 1, 1⟩

/-- Store after additionally resolving week 5. -/
def c3Db2 : DB := ⟨[⟨1, "Ann", "ann@x.com"⟩], [⟨1, 5, "Week 5"⟩], [], [], 2, 2, 1⟩

/-- Witness for C3 at a concrete fresh submission with every call
succeeding. -/
theorem c3_email_iff_persisted_witness :
    (get_or_create_student envAllOk.studentDb dbEmpty dAnn.student_name
        dAnn.student_email = (some 1, c3Db1) ∧
      (1 : Nat) ≠ 0 ∧
      get_or_create_week envAllOk.weekDb c3Db1 dAnn.week_number none =
        (some 1, c3Db2) ∧
      has_existing_submission envAllOk.probeDb c3Db2 1 1 = false) ∧
    ((envAllOk.insertDb = DbOutcome.ok →
      (submitHandler envAllOk dbEmpty dAnn).2.2 = true ∧
      (submitHandler envAllOk dbEmpty dAnn).2.1 =
        send_feedback_email envAllOk.emailOutcome dAnn.student_email ++
          [Msg.successSaved c3Db2.next_input_id dAnn.week_number] ∧
      (submitHandler envAllOk dbEmpty dAnn).1.student_inputs =
        dbEmpty.student_inputs ++
          [⟨c3Db2.next_input_id, 1, 1, dAnn.student_name, dAnn.student_email,
            dAnn.story_title, dAnn.story, dAnn.total_sentences,
            dAnn.show_sentences, dAnn.tell_sentences, dAnn.reflection,
            dAnn.comment⟩]) ∧
    (envAllOk.insertDb ≠ DbOutcome.ok →
      (submitHandler envAllOk dbEmpty dAnn).2.2 = false ∧
      (submitHandler envAllOk dbEmpty dAnn).2.1 = [Msg.errorSaveFailed] ∧
      (submitHandler envAllOk dbEmpty dAnn).1.student_inputs =
        dbEmpty.student_inputs)) :=
  ⟨⟨by decide, by decide, by decide, by decide⟩,
    c3_email_iff_persisted envAllOk dbEmpty dAnn 1 1 c3Db1 c3Db2
      (by decide) (by decide) (by decide) (by decide) (by decide)⟩

/-! ## C4: email failure after a successful write is non-fatal -/

/-- C4: the email outcome never changes the persisted store (no rollback
of a committed write), and when the email step runs and the SMTP send
fails, the failure is caught and reported as its own message while the
handler still completes and reports the saved submission (no uncaught
crash). -/
theorem c4_email_failure_nonfatal (env : HandlerEnv) (db : DB) (d : SubmitData) :
    (submitHandler env db d).1 =
      (submitHandler { env with emailOutcome := EmailOutcome.sent } db d).1 ∧
    ((submitHandler env db d).2.2 = true →
      env.emailOutcome = EmailOutcome.authFail →
      Msg.emailAuthError ∈ (submitHandler env db d).2.1 ∧
      ∃ id, Msg.successSaved id d.week_number ∈ (submitHandler env db d).2.1) ∧
    ((submitHandler env db d).2.2 = true →
      env.emailOutcome = EmailOutcome.otherFail →
      Msg.emailSendError ∈ (submitHandler env db d).2.1 ∧
      ∃ id, Msg.successSaved id d.week_number ∈ (submitHandler env db d).2.1) := by
  refine ⟨?_, ?_, ?_⟩
  · simp only [submitHandler]
    split
    · rfl
    · split
      · rfl
      · split <;> rfl
  · intro hinv hfail
    revert hinv
    simp only [submitHandler]
    split
    · intro hinv
      simp at hinv
    · split
      · intro hinv
        simp at hinv
      · split
        · rename_i x iid heq
          intro _
          refine ⟨by simp [hfail, send_feedback_email], ⟨iid, by simp⟩⟩
        · intro hinv
          simp at hinv
  · intro hinv hfail
    revert hinv
    simp only [submitHandler]
    split
    · intro hinv
      simp at hinv
    · split
      · intro hinv
        simp at hinv
      · split
        · rename_i x iid heq
          intro _
          refine ⟨by simp [hfail, send_feedback_email], ⟨iid, by simp⟩⟩
        · intro hinv
          simp at hinv

/-- Environment in which every database call succeeds but the SMTP login
fails. -/
def envAuthFail : HandlerEnv :=
  ⟨DbOutcome.ok, DbOutcome.ok, DbOutcome.ok, DbOutcome.ok, EmailOutcome.authFail⟩

/-- Witness for C4: a concrete submission whose write succeeds and whose
email then fails with an auth error still reports the distinct email
failure, still reports the saved submission, and persists the same store
as the successful-email run. -/
theorem c4_email_failure_nonfatal_witness :
    (submitHandler envAuthFail dbEmpty dAnn).2.2 = true ∧
    envAuthFail.emailOutcome = EmailOutcome.authFail ∧
    (Msg.emailAuthError ∈ (submitHandler envAuthFail dbEmpty dAnn).2.1 ∧
      ∃ id, Msg.successSaved id dAnn.week_number ∈
        (submitHandler envAuthFail dbEmpty dAnn).2.1) ∧
    (submitHandler envAuthFail dbEmpty dAnn).1 =
      (submitHandler { envAuthFail with emailOutcome := EmailOutcome.sent }
        dbEmpty dAnn).1 :=
  ⟨by decide, rfl,
    (c4_email_failure_nonfatal envAuthFail dbEmpty dAnn).2.1 (by decide) rfl,
    (c4_email_failure_nonfatal envAuthFail dbEmpty dAnn).1⟩

/-! ## C10: the duplicate probe fails open -/

/-- C10: when the connection for the duplicate probe cannot be established
or the existence query raises a database error,
`has_existing_submission` returns `False` regardless of the store's
contents, so the Submit handler proceeds as if no prior submission
existed: with a succeeding insert it appends a new `student_inputs` row
and invokes the email, even if a row for the same `(student_id, week_id)`
already exists. -/
theorem c10_probe_fails_open (env : HandlerEnv) (db : DB) (d : SubmitData)
    (sid wid : Nat) (db1 db2 : DB)
    (h1 : get_or_create_student env.studentDb db d.student_name d.student_email =
      (some sid, db1))
    (hsid : sid ≠ 0)
    (h2 : get_or_create_week env.weekDb db1 d.week_number none = (some wid, db2))
    (hwid : wid ≠ 0)
    (hprobe : env.probeDb ≠ DbOutcome.ok)
    (hins : env.insertDb = DbOutcome.ok) :
    has_existing_submission env.probeDb db2 sid wid = false ∧
    (submitHandler env db d).1.student_inputs =
      db2.student_inputs ++
        [⟨db2.next_input_id, sid, wid, d.student_name, d.student_email,
          d.story_title, d.story, d.total_sentences, d.show_sentences,
          d.tell_sentences, d.reflection, d.comment⟩] ∧
    (submitHandler env db d).2.2 = true := by
  have hfalse : has_existing_submission env.probeDb db2 sid wid = false := by
    cases hp : env.probeDb with
    | ok => exact absurd hp hprobe
    | connFail => simp [has_existing_submission]
    | sqlErr => simp [has_existing_submission]
  refine ⟨hfalse, ?_, ?_⟩
  · simp only [submitHandler, h1, h2]
    simp [truthyId, hsid, hwid, hfalse, hins, insert_submission_and_sentences]
  · simp only [submitHandler, h1, h2]
    simp [truthyId, hsid, hwid, hfalse, hins, insert_submission_and_sentences]

/-- Environment in which the duplicate probe's connection fails but every
other call succeeds. -/
def envProbeDown : HandlerEnv :=
  ⟨DbOutcome.ok, DbOutcome.ok, DbOutcome.connFail, DbOutcome.ok, EmailOutcome.sent⟩

/-- Witness for C10: against a store that already holds Ann's week-5
submission, a probe whose connection fails lets the handler insert a
second row for the same (student, week). -/
theorem c10_probe_fails_open_witness :
    (get_or_create_student envProbeDown.studentDb dbPre dAnn.student_name
        dAnn.student_email = (some 1, dbPre) ∧
      (1 : Nat) ≠ 0 ∧
      get_or_create_week envProbeDown.weekDb dbPre dAnn.week_number none =
        (some 1, dbPre) ∧
      envProbeDown.probeDb ≠ DbOutcome.ok ∧
      envProbeDown.insertDb = DbOutcome.ok) ∧
    (has_existing_submission envProbeDown.probeDb dbPre 1 1 = false ∧
      (submitHandler envProbeDown dbPre dAnn).1.student_inputs =
        dbPre.student_inputs ++
          [⟨dbPre.next_input_id, 1, 1, dAnn.student_name, dAnn.student_email,
            dAnn.story_title, dAnn.story, dAnn.total_sentences,
            dAnn.show_sentences, dAnn.tell_sentences, dAnn.reflection,
            dAnn.comment⟩] ∧
      (submitHandler envProbeDown dbPre dAnn).2.2 = true) :=
  ⟨⟨by decide, by decide, by decide, by decide, by decide⟩,
    c10_probe_fails_open envProbeDown dbPre dAnn 1 1 dbPre dbPre
      (by decide) (by decide) (by decide) (by decide) (by decide) (by decide)⟩

/-! ## C7: upsert_student idempotence under email normalization -/

theorem find?_map_of_pred_comm {α : Type} (f : α → α) (p : α → Bool)
    (hf : ∀ s, p (f s) = p s) :
    ∀ (l : List α), (l.map f).find? p = (l.find? p).map f
  | [] => rfl
  | a :: t => by
    by_cases h : p a = true
    · rw [List.map_cons, List.find?_cons_of_pos _ (by rw [hf a]; exact h),
        List.find?_cons_of_pos _ h]
      rfl
    · have h' : ¬p a = true := h
      rw [List.map_cons, List.find?_cons_of_neg _ (by rw [hf a]; exact h'),
        List.find?_cons_of_neg _ h', find?_map_of_pred_comm f p hf t]

theorem student_update_pred_comm (nid : Nat) (nm e : String) :
    ∀ s : Student,
      (((fun s : Student =>
          if s.student_id == nid then { s with full_name := nm } else s) s).email == e) =
        (s.email == e) := by
  intro s
  by_cases h : (s.student_id == nid) = true <;> simp [h]

/-- C7: calling `get_or_create_student` twice with emails that agree after
trimming and lower-casing resolves to the same `student_id` both times,
and afterwards the row for that normalized email carries the second
call's (stripped) `full_name`. -/
theorem c7_upsert_student_idempotent (db : DB)
    (name1 email1 name2 email2 : String)
    (hnorm : normalizeEmail email1 = normalizeEmail email2) :
    (get_or_create_student DbOutcome.ok db name1 email1).1.isSome = true ∧
    (get_or_create_student DbOutcome.ok
        (get_or_create_student DbOutcome.ok db name1 email1).2 name2 email2).1 =
      (get_or_create_student DbOutcome.ok db name1 email1).1 ∧
    (get_or_create_student DbOutcome.ok
          (get_or_create_student DbOutcome.ok db name1 email1).2 name2
          email2).2.students.find?
        (fun st => st.email == normalizeEmail email1) =
      some ⟨(get_or_create_student DbOutcome.ok db name1 email1).1.getD 0,
        pyStrip name2, normalizeEmail email1⟩ := by
  cases h : db.students.find? (fun st => st.email == normalizeEmail email1) with
  | none =>
    have hfind2 : (db.students ++
        [⟨db.next_student_id, pyStrip name1, normalizeEmail email1⟩] :
          List Student).find? (fun st => st.email == normalizeEmail email1) =
        some ⟨db.next_student_id, pyStrip name1, normalizeEmail email1⟩ := by
      rw [List.find?_append, h]
      simp
    refine ⟨?_, ?_, ?_⟩
    · simp [get_or_create_student, h]
    · simp only [get_or_create_student, ← hnorm, h]
      simp only [hfind2]
    · simp only [get_or_create_student, ← hnorm, h]
      simp only [hfind2]
      rw [find?_map_of_pred_comm _ _
        (student_update_pred_comm db.next_student_id (pyStrip name2)
          (normalizeEmail email1)), hfind2]
      simp
  | some st =>
    have hst : st.email = normalizeEmail email1 := by
      have := List.find?_some h
      simpa [beq_iff_eq] using this
    have hupd1 : ∀ nm,
        ((db.students.map (fun s : Student =>
            if s.student_id == st.student_id then { s with full_name := nm }
            else s)).find? (fun x => x.email == normalizeEmail email1)) =
          some { st with full_name := nm } := by
      intro nm
      rw [find?_map_of_pred_comm _ _
        (student_update_pred_comm st.student_id nm (normalizeEmail email1)), h]
      simp
    refine ⟨?_, ?_, ?_⟩
    · simp [get_or_create_student, h]
    · simp only [get_or_create_student, ← hnorm, h]
      simp only [hupd1 (pyStrip name1)]
    · simp only [get_or_create_student, ← hnorm, h]
      simp only [hupd1 (pyStrip name1)]
      rw [find?_map_of_pred_comm _ _
        (student_update_pred_comm st.student_id (pyStrip name2)
          (normalizeEmail email1))]
      rw [hupd1 (pyStrip name1)]
      simp [hst]

/-- Witness for C7: the same email differing in case and surrounding
whitespace resolves to the same student id twice, with the name
updated. -/
theorem c7_upsert_student_idempotent_witness :
    normalizeEmail " Alice@X.com " = normalizeEmail "alice@x.com" ∧
    ((get_or_create_student DbOutcome.ok dbEmpty "Alice A" " Alice@X.com ").1.isSome = true ∧
    (get_or_create_student DbOutcome.ok
        (get_or_create_student DbOutcome.ok dbEmpty "Alice A" " Alice@X.com ").2
        "Alice B" "alice@x.com").1 =
      (get_or_create_student DbOutcome.ok dbEmpty "Alice A" " Alice@X.com ").1 ∧
    (get_or_create_student DbOutcome.ok
          (get_or_create_student DbOutcome.ok dbEmpty "Alice A" " Alice@X.com ").2
          "Alice B" "alice@x.com").2.students.find?
        (fun st => st.email == normalizeEmail " Alice@X.com ") =
      some ⟨(get_or_create_student DbOutcome.ok dbEmpty "Alice A" " Alice@X.com ").1.getD 0,
        pyStrip "Alice B", normalizeEmail " Alice@X.com "⟩) :=
  ⟨by decide,
    c7_upsert_student_idempotent dbEmpty "Alice A" " Alice@X.com " "Alice B"
      "alice@x.com" (by decide)⟩

/-! ## C8: week resync and unset admin key -/

/-- C8: on every render while the admin session is not unlocked, the week
value is reset to the configured default; and when the configured admin
key is unset, the Unlock handler with any input reports the configuration
error and leaves the session (in particular the locked state) unchanged. -/
theorem c8_admin_gating (secretWeek : Option Int) (adminEntered : String)
    (s : AdminSession)
    (hlocked : s.admin_ok = false) :
    (weekResync secretWeek s).week_number = current_week_default secretWeek ∧
    unlockHandler none adminEntered s = (s, [Msg.errorAdminKeyMissing]) := by
  constructor
  · simp [weekResync, hlocked]
  · have hkey : (pyStrip (read_admin_key none) == "") = true := by decide
    simp [unlockHandler, hkey]

/-- Witness for C8 at a locked session, configured week 7, and an
arbitrary concrete Unlock input. -/
theorem c8_admin_gating_witness :
    ((⟨false, 3⟩ : AdminSession).admin_ok = false) ∧
    ((weekResync (some 7) ⟨false, 3⟩).week_number = current_week_default (some 7) ∧
      unlockHandler none "anything" ⟨false, 3⟩ =
        (⟨false, 3⟩, [Msg.errorAdminKeyMissing])) :=
  ⟨rfl, c8_admin_gating (some 7) "anything" ⟨false, 3⟩ rfl⟩

/-! ## C9: Input-page validation -/

/-- Initial session of the Input page. -/
def appSession0 : AppSession := ⟨"input", [], "", "", "", 5⟩

/-- C9 counterexample: with name, email and title filled but the story
text whitespace-only, the Analyze handler refuses the transition but
emits no message at all — contrary to the claim that an error message is
surfaced whenever a required field is empty. -/
theorem c9_counterexample :
    (analyzeHandler envAllOk dbEmpty appSession0 ⟨"a", "b", "c", " "⟩).2.2 =
      ([] : List Msg) ∧
    (analyzeHandler envAllOk dbEmpty appSession0 ⟨"a", "b", "c", " "⟩).1 =
      appSession0 := by
  constructor <;> decide

/-- C9 (amended): the Input → Analysis transition requires non-empty
name, email, title and story text.  When name, email or title is empty,
the transition is refused with an error message, and neither the session
nor the store changes.  When only the story text is empty after
stripping, the transition is also refused with no changes, but silently:
no message is surfaced. -/
theorem c9_input_validation_amended (env : HandlerEnv) (db : DB)
    (s : AppSession) (form : InputForm) :
    (form.student_name = "" ∨ form.email = "" ∨ form.title = "" →
      analyzeHandler env db s form = (s, db, [Msg.errorMissingFields])) ∧
    (form.student_name ≠ "" → form.email ≠ "" → form.title ≠ "" →
      pyStrip form.input_text = "" →
      analyzeHandler env db s form = (s, db, [])) := by
  constructor
  · intro h
    rcases h with h | h | h <;> simp [analyzeHandler, h]
  · intro h1 h2 h3 h4
    simp [analyzeHandler, h1, h2, h3, h4]

/-- Witness for the amended C9: a missing name surfaces the error with no
state change; a whitespace-only story is refused silently. -/
theorem c9_input_validation_amended_witness :
    (("" : String) = "" ∨ ("e" : String) = "" ∨ ("t" : String) = "") ∧
    analyzeHandler envAllOk dbEmpty appSession0 ⟨"", "e", "t", "x"⟩ =
      (appSession0, dbEmpty, [Msg.errorMissingFields]) ∧
    pyStrip " " = "" ∧
    analyzeHandler envAllOk dbEmpty appSession0 ⟨"a", "b", "c", " "⟩ =
      (appSession0, dbEmpty, []) :=
  ⟨Or.inl rfl,
    (c9_input_validation_amended envAllOk dbEmpty appSession0
      ⟨"", "e", "t", "x"⟩).1 (Or.inl rfl),
    by decide,
    (c9_input_validation_amended envAllOk dbEmpty appSession0
      ⟨"a", "b", "c", " "⟩).2 (by decide) (by decide) (by decide) (by decide)⟩
